import Mathlib

/-!
Shallow embedding of the LIN bus frame library (`Lin_Interface.cpp` /
`Lin_Interface.hpp`): protected-identifier derivation, checksum
computation, the byte-driven receive state machine of `listenBus`, the
echo-readback of `writeFrame`, and the transport-call sequence of
`writeBreak`.  Machine integers are modelled as `Nat` (with explicit
`% 2^w` where C truncation happens) and `Int` (for the signed
`bytes_received` counter).
-/

namespace LinInterface

/-- `bitRead(value, n)` of the Arduino core: bit `n` of `value`. -/
def bitRead (value n : Nat) : Nat := (value >>> n) &&& 1

/-- `(uint8_t)(~x)` for a C value `x` (int promotion, complement,
truncation to a byte): `255 - (x % 256)`. -/
def cNot8 (x : Nat) : Nat := 255 - (x % 256)

/-- `Lin_Interface::getProtectedID` (Lin_Interface.cpp:353-364).
`p0`/`p1` are the `uint8_t` locals (so `p1` is `0xFF` or `0xFE` thanks to
the C `~` on a 0/1 value); the final `% 256` is the cast of the `int`
expression to the `uint8_t` return type. -/
def getProtectedID (FrameID : Nat) : Nat :=
  let p0 := bitRead FrameID 0 ^^^ bitRead FrameID 1 ^^^ bitRead FrameID 2 ^^^ bitRead FrameID 4
  let p1 := cNot8 (bitRead FrameID 1 ^^^ bitRead FrameID 3 ^^^ bitRead FrameID 4 ^^^ bitRead FrameID 5)
  ((p1 <<< 7) ||| (p0 <<< 6) ||| (FrameID &&& 0x3F)) % 256

/-- One pass of the carry-fold loop of `getChecksum`
(`while (sum >> 8) sum = (sum & 0xFF) + (sum >> 8);`,
Lin_Interface.cpp:394-395), with structural fuel.  Each iteration strictly
decreases a `sum ≥ 256`, so `fuel = sum` (see `foldCarry`) always
suffices. -/
def foldCarryAux : Nat → Nat → Nat
  | 0, sum => sum
  | fuel + 1, sum =>
    if sum >>> 8 = 0 then sum else foldCarryAux fuel ((sum &&& 0xFF) + (sum >>> 8))

/-- The carry-fold loop of `getChecksum`, run to completion. -/
def foldCarry (sum : Nat) : Nat := foldCarryAux sum sum

/-- The data-summing loop of `getChecksum`
(`while (dataLen-- > 0) sum += LinMessage[dataLen];`,
Lin_Interface.cpp:391-392): bytes are added from the highest index down
to index 0, in `uint16_t` arithmetic (hence `% 65536` per addition).
`data` stands for the first `dataLen` bytes of `LinMessage`. -/
def sumData (data : List Nat) (sum : Nat) : Nat :=
  data.foldr (fun b s => (s + b) % 65536) sum

/-- `Lin_Interface::getChecksum` (Lin_Interface.cpp:379-398): seed the sum
with the ProtectedID byte unless its low six bits name a
configuration/reserved identifier (`(sum & 0x3F) >= 0x3C`, in which case
the seed is forced to `0`), add the data bytes, fold the carries, and
return the complement byte. -/
def getChecksum (ProtectedID : Nat) (data : List Nat) : Nat :=
  let sum0 := if 0x3C ≤ ProtectedID &&& 0x3F then 0 else ProtectedID
  cNot8 (foldCarry (sumData data sum0))

/-- The checksum with the seed always included, no internal mode test.
Not code of the repository: it expresses what "the seed byte is included
in the sum" means, to be compared with `getChecksum`. -/
def checksumRaw (seed : Nat) (data : List Nat) : Nat :=
  cNot8 (foldCarry (sumData data seed))

/-- The checksum-validity test of `listenBus`
(`0xFF == (uint8_t)(Checksum + ~getChecksum(ProtectedID, ...))`,
Lin_Interface.cpp:140). -/
def checksumValid (ProtectedID : Nat) (data : List Nat) (cks : Nat) : Bool :=
  0xFF == (cks + cNot8 (getChecksum ProtectedID data)) % 256

/-- State of the byte-reception loop of `listenBus`
(Lin_Interface.cpp:54-104): `bytesReceived` is the signed counter that
encodes the phase (`-4`/`-3` header search, `-3` break seen, `-2` sync
seen, `≥ 0` data collection), `protectedID` the captured PID byte, and
`message` the bytes stored into `LinMessage[0..]` so far. -/
structure RxState where
  bytesReceived : Int
  protectedID : Nat
  message : List Nat
deriving DecidableEq

/-- One iteration of the `while (HardwareSerial::available())` loop of
`listenBus` on the byte `b` just read (the `switch` at
Lin_Interface.cpp:62-101): the header cases `-4..-1` run the
break/sync/PID cascade, the `default` case stores the byte at index
`bytesReceived` and increments. -/
def rxStep (st : RxState) (b : Nat) : RxState :=
  if st.bytesReceived < 0 then
    if b = 0x00 then { st with bytesReceived := -3 }
    else if b = 0x55 ∧ st.bytesReceived = -3 then { st with bytesReceived := -2 }
    else if b ≠ 0x00 ∧ st.bytesReceived = -3 then { st with bytesReceived := -4 }
    else if st.bytesReceived = -2 then { st with protectedID := b, bytesReceived := 0 }
    else { st with bytesReceived := -4 }
  else
    { st with message := st.message ++ [b], bytesReceived := st.bytesReceived + 1 }

/-- The reception loop of `listenBus` over the bytes available on the
bus, with the `bytes_received >= (8 + 1)` guard that stops collection at
9 bytes (Lin_Interface.cpp:55-61); later bytes are drained and
discarded. -/
def listenLoop : RxState → List Nat → RxState
  | st, [] => st
  | st, b :: rest =>
    if 8 + 1 ≤ st.bytesReceived then st else listenLoop (rxStep st b) rest

/-- `int bytes_received = -4;` with empty capture (Lin_Interface.cpp:41,54). -/
def rxInit : RxState := ⟨-4, 0, []⟩

/-- What `listenBus` reports to the caller: the returned checksum-validity
flag and the `LinMessageSize` / `LinMessageID` members. -/
structure LinResult where
  checksumValid : Bool
  linMessageSize : Nat
  linMessageID : Nat
deriving DecidableEq

/-- The post-processing of `listenBus` (Lin_Interface.cpp:135-148): on a
positive byte count the last stored byte is taken as the checksum, the
validity test runs over the preceding bytes, `LinMessageSize` is set to
the byte count and `LinMessageID` to the PID's low six bits; otherwise an
empty result with the initial `false` flag. -/
def postProcess (st : RxState) : LinResult :=
  if 0 < st.bytesReceived then
    { checksumValid := checksumValid st.protectedID
        (st.message.take (st.bytesReceived.toNat - 1))
        (st.message.getD (st.bytesReceived.toNat - 1) 0),
      linMessageSize := st.bytesReceived.toNat,
      linMessageID := st.protectedID &&& 0x3F }
  else
    { checksumValid := false,
      linMessageSize := 0,
      linMessageID := st.protectedID &&& 0x3F }

/-- `listenBus` as a function of the bytes that arrive on the bus during
its receive window (an empty list models a 500 ms window in which no byte
arrives: the wait loop times out and the reception loop never runs). -/
def listenBusModel (input : List Nat) : LinResult :=
  postProcess (listenLoop rxInit input)

/-- A call on the serial transport, as issued by `writeBreak`. -/
inductive SerialOp where
  | flush : SerialOp
  | updateBaudRate : Nat → SerialOp
  | writeByte : Nat → SerialOp
deriving DecidableEq

/-- The transport calls of `Lin_Interface::writeBreak`
(Lin_Interface.cpp:335-348), in program order: `flush()`,
`updateBaudRate(baud >> 1)`, `write(0x00)`, `flush()`,
`updateBaudRate(baud)`. -/
def writeBreakOps (baud : Nat) : List SerialOp :=
  [.flush, .updateBaudRate (baud >>> 1), .writeByte 0x00, .flush,
   .updateBaudRate baud]

/-- The data-collection loop of `writeFrame`'s echo readback
(Lin_Interface.cpp:252-263): counts stored bytes, stopping once
`bytes_received >= 8 + 1 + 4` (the buffer capacity). -/
def echoCollect : List Nat → Nat → Nat
  | [], n => n
  | _ :: rest, n => if 8 + 1 + 4 ≤ n then n else echoCollect rest (n + 1)

/-- `bytes_received` after `writeFrame`'s echo data loop: the three
header reads (break, sync, PID, Lin_Interface.cpp:233-248) each consume
one byte when available, the rest feeds the collection loop. -/
def writeFrameEchoCount (echo : List Nat) : Nat :=
  echoCollect (echo.drop 3) 0

/-- The `LinMessage` index of the
`Checksum_received = LinMessage[bytes_received - 1]` read
(Lin_Interface.cpp:264), as the signed C index. -/
def writeFrameChecksumReadIndex (echo : List Nat) : Int :=
  (writeFrameEchoCount echo : Int) - 1

/-- The `uint8_t dataLen` that `writeFrame` passes to `getChecksum`
(Lin_Interface.cpp:272): the `int` counter after `bytes_received--`
(Lin_Interface.cpp:265), truncated to a byte by the parameter type.
`getChecksum` then reads `LinMessage[dataLen-1] .. LinMessage[0]`. -/
def writeFrameChkDataLen (echo : List Nat) : Nat :=
  (((writeFrameEchoCount echo : Int) - 1).emod 256).toNat

/-- Every `LinMessage` index read by `writeFrame` after the echo loop:
the checksum read plus the indices `0 .. dataLen - 1` that the summing
loop of `getChecksum` visits. -/
def writeFrameBufferReadIndices (echo : List Nat) : List Int :=
  writeFrameChecksumReadIndex echo ::
    (List.range (writeFrameChkDataLen echo)).map Int.ofNat

/-- The session fields of `Lin_Interface` the claims speak about
(Lin_Interface.hpp:23-26). -/
structure Session where
  verboseMode : Int
  baud : Nat
  rxPin : Int
  txPin : Int
deriving DecidableEq

/-- Effect of `writeFrame` on the session fields: the only assignment to
any of them in the function body is `verboseMode = 1`
(Lin_Interface.cpp:230), made before the echoed bytes are inspected; no
statement of `writeFrame` writes `baud`, `rxPin` or `txPin`.  Paired with
the echo byte count the inspection then uses. -/
def writeFrameModel (s : Session) (echo : List Nat) : Session × Nat :=
  ({ s with verboseMode := 1 }, writeFrameEchoCount echo)

end LinInterface

namespace LinInterface

/-- C1: for every FrameID in [0,63], the protected identifier keeps the
FrameID in its low six bits, carries `p0 = bit0⊕bit1⊕bit2⊕bit4` in bit 6
and `p1 = ¬(bit1⊕bit3⊕bit4⊕bit5)` in bit 7. -/
theorem getProtectedID_parity (FrameID : Nat) (h : FrameID < 64) :
    getProtectedID FrameID &&& 0x3F = FrameID ∧
    (getProtectedID FrameID >>> 6) &&& 1 =
      bitRead FrameID 0 ^^^ bitRead FrameID 1 ^^^ bitRead FrameID 2 ^^^ bitRead FrameID 4 ∧
    (getProtectedID FrameID >>> 7) &&& 1 =
      1 - (bitRead FrameID 1 ^^^ bitRead FrameID 3 ^^^ bitRead FrameID 4 ^^^ bitRead FrameID 5) := by
  revert FrameID
  decide

/-- Witness for C1 at FrameID `0x22` (protected identifier `0xE2`). -/
theorem getProtectedID_parity_witness :
    (0x22 : Nat) < 64 ∧ getProtectedID 0x22 &&& 0x3F = 0x22 := by
  exact ⟨by decide, (getProtectedID_parity 0x22 (by decide)).1⟩

/-- C2: `getChecksum` forces the seed contribution to `0` exactly when the
seed's low six bits are at least `0x3C` (Classic mode), and otherwise
includes the seed byte in the sum (Enhanced mode); the choice is made
inside `getChecksum` from the seed alone.  Consequently
`getChecksum (getProtectedID 0x3B)` sums the identifier byte (`0xFB`) and
`getChecksum (getProtectedID 0x3C)` is the checksum of the data bytes
alone. -/
theorem getChecksum_mode (seed : Nat) (data : List Nat) :
    getChecksum seed data =
      checksumRaw (if 0x3C ≤ seed &&& 0x3F then 0 else seed) data ∧
    getChecksum (getProtectedID 0x3B) data = checksumRaw (getProtectedID 0x3B) data ∧
    getChecksum (getProtectedID 0x3C) data = checksumRaw 0 data ∧
    getChecksum (getProtectedID 0x3C) data = getChecksum 0 data := by
  refine ⟨?_, ?_, ?_, ?_⟩
  · unfold getChecksum checksumRaw
    split <;> rfl
  · show getChecksum 0xFB data = checksumRaw 0xFB data
    unfold getChecksum checksumRaw
    rw [if_neg (by decide)]
  · show getChecksum 0x3C data = checksumRaw 0 data
    unfold getChecksum checksumRaw
    rw [if_pos (by decide)]
  · show getChecksum 0x3C data = getChecksum 0 data
    unfold getChecksum
    rw [if_pos (by decide), if_neg (by decide)]

/-- The payload of the spec's round-trip example (also the simulated frame
of `listenBus` under `LINSIMULATION`). -/
def testPayload : List Nat := [0xAB, 0x84, 0x1E, 0xF4, 0x2E, 0x84, 0x7A, 0x55]

set_option maxHeartbeats 2000000 in
set_option maxRecDepth 10000 in
/-- C3: for identifier `0x22` and the example payload, the enhanced
checksum is `0x18`, the validity test of `listenBus` accepts it, and
replacing any single payload byte by any different byte value makes the
validity test reject. -/
theorem roundTrip_0x22 :
    getChecksum 0x22 testPayload = 0x18 ∧
    checksumValid 0x22 testPayload 0x18 = true ∧
    ∀ i < 8, ∀ b < 256, b ≠ testPayload.getD i 0 →
      checksumValid 0x22 (testPayload.set i b) 0x18 = false := by
  refine ⟨by decide, by decide, by decide⟩

/-- The summing loop is a plain 16-bit sum: for a seed below `2^16` it
computes `(seed + Σ data) % 65536`. -/
theorem sumData_eq : ∀ (data : List Nat) (s : Nat), s < 65536 →
    sumData data s = (s + data.sum) % 65536
  | [], s, h => by
    show s = (s + 0) % 65536
    omega
  | b :: rest, s, h => by
    have ih := sumData_eq rest s h
    show (sumData rest s + b) % 65536 = (s + (b :: rest).sum) % 65536
    rw [ih, List.sum_cons]
    omega

/-- Permuting the data bytes does not change the 16-bit sum. -/
theorem sumData_perm (data data' : List Nat) (s : Nat) (h : s < 65536)
    (hp : data.Perm data') : sumData data s = sumData data' s := by
  rw [sumData_eq data s h, sumData_eq data' s h, hp.sum_eq]

/-- C4: for every seed byte and every list of at most 13 data bytes,
`getChecksum` is invariant under permutation of the data bytes. -/
theorem getChecksum_perm_invariant (seed : Nat) (data data' : List Nat)
    (hseed : seed < 256) (hbytes : ∀ b ∈ data, b < 256)
    (hlen : data.length ≤ 13) (hperm : data.Perm data') :
    getChecksum seed data = getChecksum seed data' := by
  show cNot8 (foldCarry (sumData data (if 0x3C ≤ seed &&& 0x3F then 0 else seed))) =
       cNot8 (foldCarry (sumData data' (if 0x3C ≤ seed &&& 0x3F then 0 else seed)))
  rw [sumData_perm data data' _ (by split <;> omega) hperm]

/-- Witness for C4: seed `0x22`, data `[1, 2, 3]` against `[3, 1, 2]`. -/
theorem getChecksum_perm_invariant_witness :
    (0x22 : Nat) < 256 ∧ (∀ b ∈ ([1, 2, 3] : List Nat), b < 256) ∧
    ([1, 2, 3] : List Nat).length ≤ 13 ∧
    ([1, 2, 3] : List Nat).Perm [3, 1, 2] ∧
    getChecksum 0x22 [1, 2, 3] = getChecksum 0x22 [3, 1, 2] :=
  ⟨by decide, by decide, by decide, by decide,
    getChecksum_perm_invariant 0x22 [1, 2, 3] [3, 1, 2]
      (by decide) (by decide) (by decide) (by decide)⟩

/-- C5 counterexample: with the parser in the sync-seen state
(`bytes_received = -2`), a `0x00` byte is NOT captured as the
ProtectedID; the `if (buffer == 0x00)` branch fires first and the state
returns to `-3` (break seen), not to data collection. -/
theorem rxStep_seekIdentifier_zero_counterexample :
    (rxStep ⟨-2, 0, []⟩ 0x00).bytesReceived = -3 ∧
    (rxStep ⟨-2, 0, []⟩ 0x00).bytesReceived ≠ 0 := by
  decide

/-- C5 amended: in the sync-seen state, a NONZERO byte is captured as the
ProtectedID and the counter moves to `0` (data collection); a `0x00` byte
is instead treated as a new break and the state returns to break-seen
(`-3`). -/
theorem rxStep_seekIdentifier (st : RxState) (b : Nat)
    (h : st.bytesReceived = -2) :
    (b ≠ 0x00 → rxStep st b = { st with protectedID := b, bytesReceived := 0 }) ∧
    (b = 0x00 → rxStep st b = { st with bytesReceived := -3 }) := by
  constructor
  · intro hb
    simp [rxStep, h, hb]
  · intro hb
    simp [rxStep, h, hb]

/-- Witness for C5 (amended) at state `⟨-2, 5, [1]⟩` and byte `0x09`. -/
theorem rxStep_seekIdentifier_witness :
    (⟨-2, 5, [1]⟩ : RxState).bytesReceived = -2 ∧
    rxStep ⟨-2, 5, [1]⟩ 0x09 = ⟨0, 0x09, [1]⟩ := by
  refine ⟨rfl, ?_⟩
  exact (rxStep_seekIdentifier ⟨-2, 5, [1]⟩ 0x09 rfl).1 (by decide)

/-- C6 counterexample: the input `00 55 80 01 02` completes a reception
with `n = 2` bytes after the PID (one data byte and the checksum byte),
and `LinMessageSize` is set to `2`, not `n - 1 = 1`: the code stores
`bytes_received` itself (the `bytes_received--;` at Lin_Interface.cpp:139
is commented out), so the reported size includes the checksum byte. -/
theorem listenBus_size_counterexample :
    (listenBusModel [0x00, 0x55, 0x80, 0x01, 0x02]).linMessageSize = 2 ∧
    (listenBusModel [0x00, 0x55, 0x80, 0x01, 0x02]).linMessageSize ≠ 2 - 1 := by
  decide

/-- C6 amended: a reception completing with `n > 0` bytes after the PID
reports `LinMessageSize = n` (payload bytes PLUS the trailing checksum
byte) and `LinMessageID` equal to the captured ProtectedID masked with
`0x3F`. -/
theorem listenBus_size_id (input : List Nat)
    (h : 0 < (listenLoop rxInit input).bytesReceived) :
    (listenBusModel input).linMessageSize =
      (listenLoop rxInit input).bytesReceived.toNat ∧
    (listenBusModel input).linMessageID =
      (listenLoop rxInit input).protectedID &&& 0x3F := by
  unfold listenBusModel postProcess
  rw [if_pos h]
  exact ⟨rfl, rfl⟩

/-- Witness for C6 (amended) on the input `00 55 80 01 02` (`n = 2`,
PID `0x80`, identifier `0`). -/
theorem listenBus_size_id_witness :
    0 < (listenLoop rxInit [0x00, 0x55, 0x80, 0x01, 0x02]).bytesReceived ∧
    (listenBusModel [0x00, 0x55, 0x80, 0x01, 0x02]).linMessageSize = 2 ∧
    (listenBusModel [0x00, 0x55, 0x80, 0x01, 0x02]).linMessageID = 0 := by
  have h : 0 < (listenLoop rxInit [0x00, 0x55, 0x80, 0x01, 0x02]).bytesReceived := by
    decide
  have hm := listenBus_size_id [0x00, 0x55, 0x80, 0x01, 0x02] h
  refine ⟨h, ?_, ?_⟩
  · rw [hm.1]; decide
  · rw [hm.2]; decide

/-- C7: when no byte at all arrives during the receive window (empty
input: the wait loop times out, the reception loop never runs), the model
of `listenBus` reports checksum invalid, size `0` and identifier `0` —
it returns a value, it does not abort. -/
theorem listenBus_timeout_empty :
    (listenBusModel []).checksumValid = false ∧
    (listenBusModel []).linMessageSize = 0 ∧
    (listenBusModel []).linMessageID = 0 := by
  decide

/-- C8: every call to `writeBreak` performs exactly the sequence flush,
set baud to half the configured rate, write the single byte `0x00`,
flush, restore the configured baud rate — in this order with nothing
interleaved. -/
theorem writeBreak_sequence (baud : Nat) :
    writeBreakOps baud =
      [SerialOp.flush, SerialOp.updateBaudRate (baud / 2),
       SerialOp.writeByte 0x00, SerialOp.flush, SerialOp.updateBaudRate baud] := by
  unfold writeBreakOps
  rw [Nat.shiftRight_eq_div_pow, pow_one]

/-- C9: when zero data bytes are echoed back (empty echo), `writeFrame`
reads `LinMessage[-1]` for the echoed checksum and calls `getChecksum`
with `dataLen = 255` (the `int` value `-1` truncated to `uint8_t`), whose
summing loop reads up to index `254` — both outside the 13-byte buffer
`[0, 12]`, contradicting the claimed bound. -/
theorem writeFrame_oob_read :
    writeFrameChecksumReadIndex [] = -1 ∧
    writeFrameChkDataLen [] = 255 ∧
    (254 : Int) ∈ writeFrameBufferReadIndices [] ∧
    ¬ (∀ i ∈ writeFrameBufferReadIndices [], 0 ≤ i ∧ i ≤ 12) := by
  refine ⟨by decide, by decide, by decide, ?_⟩
  intro h
  exact absurd (h (writeFrameChecksumReadIndex []) (List.mem_cons_self _ _)).1
    (by decide)

/-- C10: `writeFrame` sets `verboseMode` to `1` for every initial session
state and every echo pattern, and leaves `baud`, `rxPin` and `txPin`
unchanged. -/
theorem writeFrame_verboseMode (s : Session) (echo : List Nat) :
    (writeFrameModel s echo).1.verboseMode = 1 ∧
    (writeFrameModel s echo).1.baud = s.baud ∧
    (writeFrameModel s echo).1.rxPin = s.rxPin ∧
    (writeFrameModel s echo).1.txPin = s.txPin :=
  ⟨rfl, rfl, rfl, rfl⟩

end LinInterface
